import Mathlib

/-!
Verification of the bloomin8-python sync tool (src/main.py and the
bloomin8_api package) against its natural-language specification.

The development shallowly embeds the decision logic of the repository:

* the reconciliation plan computed in main.py lines 209-216 and 253-254
  (set differences of local and remote filenames);
* the execution loops of main.py lines 291-334 (deletes then uploads,
  per-item failure tolerance), modelled with success oracles;
* the full control flow of main, main.py lines 93-387, as a pure function
  of an environment describing every external outcome (filesystem checks,
  gallery listing, image listing, confirmation input, per-item results,
  sleep result), returning the exit code, the ordered trace of device
  mutations and whether the final sleep call was attempted;
* the liveness probe Bloomin8.is_awake, client.py lines 117-153;
* the BLE wake path wake_device_bluetooth, bluetooth.py lines 14-160;
* GalleryManager.get / get_images, managers/gallery.py lines 47-88, over a
  page-serving device endpoint modelled from the spec (the generated
  binding for GET /gallery is not part of the sources).
-/

/-! ## Reconciliation plan (main.py 209-216, 253-254; spec section 4.3) -/

/-- The derived sync plan: three filename sets.  Spec section 3, SyncPlan. -/
structure SyncPlan where
  to_upload : Finset String
  unchanged : Finset String
  to_delete : Finset String
deriving DecidableEq

/-- The plan computation of main.py.  Viewing the filename collections as
sets (main.py 210-211 builds them as Python sets), line 214 keeps local
names absent remotely, line 215 keeps local names present remotely,
line 216 keeps remote names absent locally, and line 254 empties the
delete set unless mirror mode was requested. -/
def plan (L R : Finset String) (mirror : Bool) : SyncPlan where
  to_upload := L.filter (fun f => f ∉ R)
  unchanged := L.filter (fun f => f ∈ R)
  to_delete := if mirror then R.filter (fun f => f ∉ L) else ∅

/-! ## Python string primitives

The Python string methods the sources rely on (str.lower, str.strip,
the in operator), rendered over character lists so that every definition
evaluates by kernel reduction. -/

/-- Python str.lower (over the ASCII range the repository uses). -/
def pyLower (s : String) : String := String.mk (s.toList.map Char.toLower)

/-- Python str.strip with no argument: remove leading and trailing
whitespace. -/
def pyStrip (s : String) : String :=
  String.mk (((s.toList.dropWhile (fun c => c.isWhitespace)).reverse.dropWhile
    (fun c => c.isWhitespace)).reverse)

/-- Occurrence of needle inside hay as character lists; the empty needle
occurs everywhere, matching Python's in operator. -/
def charListContains (hay needle : List Char) : Bool :=
  needle.isEmpty ||
    (List.range (hay.length + 1)).any
      (fun i => (hay.drop i).take needle.length == needle)

/-! ## Liveness probe (client.py 117-153) -/

/-- The exception classes the probe can see, all indicating
unreachability: the classes named in the except clause of client.py
150-151 (the trailing Exception there catches every remaining class,
modelled by the transportFailure constructor). -/
inductive NetExc where
  | connectTimeout
  | readTimeout
  | connectionRefused
  | dnsFailure
  | transportFailure
deriving DecidableEq

/-- Outcome of the single HTTP GET on the state endpoint issued by
is_awake: either a response with some status code arrived within the
timeout, or an exception was raised (a response arriving after the
timeout surfaces as a raised timeout exception). -/
inductive ProbeOutcome where
  | response (status : Nat)
  | raised (e : NetExc)
deriving DecidableEq

/-- Bloomin8.is_awake, client.py 135-153: the try block returns
status == 200, and the except clause turns every exception into False. -/
def is_awake : ProbeOutcome → Bool
  | ProbeOutcome.response s => s == 200
  | ProbeOutcome.raised _ => false

/-! ## BLE wake path (bluetooth.py 14-160) -/

/-- A BLE advertisement as seen by scanning: an optional name and an
address. -/
structure BleDev where
  advName : Option String
  address : String
deriving DecidableEq

/-- Substring containment, the Python expression needle in hay. -/
def strContains (hay needle : String) : Bool :=
  charListContains hay.toList needle.toList

/-- The match test of bluetooth.py line 33: the advertisement has a
truthy (present, non-empty) name, and the lower-cased query is a
substring of the lower-cased name. -/
def matchesName (query : String) (d : BleDev) : Bool :=
  match d.advName with
  | none => false
  | some n => n != "" && strContains (pyLower n) (pyLower query)

/-- scan_for_device_async, bluetooth.py 28-42: an exception during
discovery yields None (lines 40-42); otherwise the address of the first
advertisement matching the query is returned, None when there is none
(lines 32-38).  The scan outcome (the discovered list, or an exception)
is supplied by the environment. -/
def scanForDevice (query : String) (scanOutcome : Except Unit (List BleDev)) :
    Option String :=
  match scanOutcome with
  | Except.error _ => none
  | Except.ok devs => (devs.find? (matchesName query)).map BleDev.address

/-- Environment for a wake attempt: the result of BLE discovery, and per
address the result of connecting (error = exception, ok b = the
is_connected flag) and of each of the two characteristic writes
(0x01 then 0x00). -/
structure WakeEnv where
  scanOutcome : Except Unit (List BleDev)
  connectOutcome : String → Except Unit Bool
  writeWake : String → Except Unit Unit
  writeReset : String → Except Unit Unit

/-- send_wake_signal_async, bluetooth.py 45-95: connect failure or an
exception anywhere in the with-block returns False (89-95); with a live
connection, the 0x01 write, the 100ms pause and the 0x00 write happen in
order and success is True (70-88). -/
def sendWakeSignal (w : WakeEnv) (addr : String) : Bool :=
  match w.connectOutcome addr with
  | Except.error _ => false
  | Except.ok false => false
  | Except.ok true =>
    match w.writeWake addr with
    | Except.error _ => false
    | Except.ok _ =>
      match w.writeReset addr with
      | Except.error _ => false
      | Except.ok _ => true

/-- wake_device_bluetooth, bluetooth.py 98-160: with no known address,
scan first and give up with (False, None) on a scan miss (141-148);
then send the wake signal to the resolved address and report the pair
(success, address) (150-156).  All exceptions below have already
collapsed into the negative branches of the called functions. -/
def wake_device_bluetooth (w : WakeEnv) (deviceName : String)
    (deviceAddress : Option String) : Bool × Option String :=
  match deviceAddress with
  | some addr => (sendWakeSignal w addr, some addr)
  | none =>
    match scanForDevice deviceName w.scanOutcome with
    | none => (false, none)
    | some addr => (sendWakeSignal w addr, some addr)

/-! ## Gallery listing (managers/gallery.py 47-88) -/

/-- A remote image record as parsed from a gallery page; the name field
may be absent (the wire model marks it UNSET), hence an option. -/
structure RemoteImg where
  nameAttr : Option String
deriving DecidableEq

/-- One page of a gallery listing as returned by the device. -/
structure GetGalleryResponse where
  data : List RemoteImg
  total : Nat
  offset : Nat
  limit : Nat
deriving DecidableEq

/-- Modelled from the spec: the generated binding get_gallery.sync
(module bloomin8_client.api.gallery_ap_is, not among the sources) issues
GET /gallery/name?offset&limit and parses one page of the gallery
listing.  Per the interface contract of spec section 6 and the docstring
of managers/gallery.py 47-55 (limit is the maximum number of images to
return, offset the starting offset), the page holds at most limit images
of the gallery's full contents starting at offset. -/
def get_gallery (contents : List RemoteImg) (offset limit : Nat) :
    GetGalleryResponse where
  data := (contents.drop offset).take limit
  total := contents.length
  offset := offset
  limit := limit

/-- GalleryManager.get_images, managers/gallery.py 72-88: one call to
get (one page request) and the page's data list is returned.  The
parameter defaults offset 0 and limit 100 are the values main.py's call
at line 192 leaves in place. -/
def get_images (contents : List RemoteImg) (offset limit : Nat) :
    List RemoteImg :=
  (get_gallery contents offset limit).data

/-! ## The orchestrator (main.py 93-387)

The function main below is a pure rendering of main.py's control flow.
Every interaction with the outside world is an input, collected in Env:
the two source-folder checks (main.py 119-125), the directory entries
seen by iterdir (203-205), the outcome of galleries.list (158: an
exception — DeviceUnreachableError or otherwise — reaches the outer
handlers at 382-387 and yields exit 1; a None result yields exit 1 at
180-182), the outcome of get_images on the target gallery (191-196), the
confirmation input (264-273, None standing for KeyboardInterrupt or
EOFError), per-filename success of images.delete and of
images.upload_from_file (297-308, 322-334; the delete key is a remote
name value, possibly the UNSET sentinel), and success of system.sleep
(374-378).  The wake-up block, main.py 141-153, touches none of the
observable outputs: is_awake and wake_device are total (see their
embeddings above, which return plain values for every outcome), and
main.py ignores their results except for logging, so the block is not
part of Env.  File sizes (315-319) feed only log statistics and are
likewise omitted.  The result records the exit code, the ordered trace
of device mutations that were attempted, whether the final sleep call
was reached, and whether it succeeded. -/

/-- One attempted device mutation during synchronization.  The image
argument of a delete is what main.py line 301 passes to images.delete:
either a remote filename or, for a record whose wire name field was
UNSET, the sentinel itself (modelled none) — the generated binding drops
an UNSET query parameter but still issues the request. -/
inductive Op where
  | delete (image : Option String)
  | upload (filename : String)
deriving DecidableEq

/-- A directory entry of the source folder: its name and whether it is a
regular file. -/
structure DirEntry where
  entryName : String
  isFile : Bool
deriving DecidableEq

/-- A gallery as listed by the device (only the name takes part in any
decision of main.py). -/
structure Gallery where
  galleryName : String
deriving DecidableEq

/-- Everything main.py observes from the outside world, plus the two
relevant flags. -/
structure Env where
  sourceExists : Bool
  sourceIsDir : Bool
  sourceEntries : List DirEntry
  galleriesResult : Except Unit (Option (List Gallery))
  targetImages : Except Unit (List RemoteImg)
  gallery : String
  mirror : Bool
  force : Bool
  confirmInput : Option String
  deleteOk : Option String → Bool
  uploadOk : String → Bool
  sleepOk : Bool

/-- Observable outcome of one run of main.py. -/
structure RunResult where
  exit : Nat
  ops : List Op
  sleepAttempted : Bool
  sleepSucceeded : Bool
deriving DecidableEq

/-- Python pathlib suffix of a filename: the part of the name from its
last dot, when that dot is neither the first nor the last character, and
empty otherwise (the rfind-based definition of pathlib.PurePath.suffix,
which main.py line 204 applies to each entry). -/
def pathSuffix (name : String) : String :=
  let cs := name.toList
  match (((cs.enum).filter (fun p => p.2 = '.')).map (fun p => p.1)).getLast? with
  | none => ""
  | some i => if 0 < i ∧ i + 1 < cs.length then String.mk (cs.drop i) else ""

/-- The local scan of main.py 200-205: keep regular files whose
lower-cased suffix is .jpg or .jpeg, and take their names. -/
def scanLocal (entries : List DirEntry) : List String :=
  (entries.filter (fun e =>
    e.isFile &&
      (pyLower (pathSuffix e.entryName) == ".jpg" ||
        pyLower (pathSuffix e.entryName) == ".jpeg"))).map DirEntry.entryName

/-- main.py line 211: the set device_filenames.  The guard
hasattr(img, 'name') there is vacuously true: the wire model
GetGalleryResponse200DataItem is an attrs class whose name attribute
always exists, holding the UNSET sentinel when the device omitted the
field.  So every record contributes its name value to the set —
a string, or the sentinel (modelled none); the sentinel is a singleton,
so set construction collapses all UNSET names to one member, as dedup
does here. -/
def deviceNamesOf (imgs : List RemoteImg) : List (Option String) :=
  (imgs.map RemoteImg.nameAttr).dedup

/-- main.py line 214: local files whose (string) name is not a member of
device_filenames; a string member matches it exactly when it is the same
string, and the UNSET sentinel matches no string. -/
def newFilesOf (localNames : List String) (deviceNames : List (Option String)) :
    List String :=
  localNames.filter (fun f => !(deviceNames.contains (some f)))

/-- main.py line 216: members of device_filenames absent from the local
filename set.  The UNSET sentinel equals no local string, so when
present it always lands in removed_files. -/
def removedFilesOf (localNames : List String)
    (deviceNames : List (Option String)) : List (Option String) :=
  deviceNames.filter (fun n => !((localNames.map some).contains n))

/-- main.py 262-276: the confirmation gate.  With the force flag the
answer is yes; otherwise the stripped, lower-cased input must be y or
yes, and an interrupted prompt (None) declines. -/
def continueSyncOf (force : Bool) (confirmInput : Option String) : Bool :=
  if force then true
  else
    match confirmInput with
    | none => false
    | some s =>
      pyLower (pyStrip s) == "y" || pyLower (pyStrip s) == "yes"

/-- Counters and attempt trace of one execution pass. -/
structure ExecResult where
  deleted : Nat
  uploaded : Nat
  ops : List Op
deriving DecidableEq

/-- The execution loops of main.py 291-334.  The delete loop runs over
removed_files when mirror mode is on and the list is non-empty (291-308);
the upload loop runs over new_files (311-334).  Every item is attempted
— the API call is issued — exactly once whatever the outcomes, each
failure being caught inside its own iteration; the counters count the
successful items. -/
def executeSync (removedFiles : List (Option String)) (newFiles : List String)
    (mirror : Bool) (delOk : Option String → Bool) (upOk : String → Bool) :
    ExecResult :=
  let delOps := if mirror && !removedFiles.isEmpty then removedFiles else []
  { deleted := (delOps.filter delOk).length
    uploaded := (newFiles.filter upOk).length
    ops := delOps.map Op.delete ++ newFiles.map Op.upload }

/-- main.py 250-380 from the point where the device image list is known:
categorize (209-216, 253-254), stop when there is nothing to do (257-258),
otherwise confirm (260-276), execute (279-334) and derive has_failures
(362-364); in every one of these branches control then reaches the sleep
attempt (372-378) and the final return (380). -/
def syncPhase (env : Env) (deviceNames : List (Option String)) : RunResult :=
  let localNames := scanLocal env.sourceEntries
  let newFiles := newFilesOf localNames deviceNames
  let removedFiles := removedFilesOf localNames deviceNames
  let filesToDelete := if env.mirror then removedFiles else []
  if newFiles.isEmpty && filesToDelete.isEmpty then
    { exit := 0, ops := [], sleepAttempted := true, sleepSucceeded := env.sleepOk }
  else if continueSyncOf env.force env.confirmInput then
    let r := executeSync removedFiles newFiles env.mirror env.deleteOk env.uploadOk
    let hasFailures :=
      decide (r.uploaded < newFiles.length) ||
        (env.mirror && !removedFiles.isEmpty && decide (r.deleted < removedFiles.length))
    { exit := if hasFailures then 1 else 0, ops := r.ops,
      sleepAttempted := true, sleepSucceeded := env.sleepOk }
  else
    { exit := 0, ops := [], sleepAttempted := true, sleepSucceeded := env.sleepOk }

/-- The device image list main.py ends up with: the target gallery's
images when a listed gallery bears the requested name (189-196), and the
empty list when none does (184-187). -/
def deviceImagesResult (env : Env) (gs : List Gallery) :
    Except Unit (List RemoteImg) :=
  if gs.any (fun g => g.galleryName == env.gallery) then env.targetImages
  else Except.ok []

/-- main.py main, lines 93-387, as a function of the environment.  The
early exits: missing or non-directory source (119-125), an exception
from galleries.list reaching the outer handlers (382-387), a None
gallery list (180-182), and a failure retrieving the target gallery's
images (194-196) — each returns 1 at once, before the sleep attempt. -/
def mainRun (env : Env) : RunResult :=
  if !env.sourceExists then
    { exit := 1, ops := [], sleepAttempted := false, sleepSucceeded := false }
  else if !env.sourceIsDir then
    { exit := 1, ops := [], sleepAttempted := false, sleepSucceeded := false }
  else
    match env.galleriesResult with
    | Except.error _ =>
      { exit := 1, ops := [], sleepAttempted := false, sleepSucceeded := false }
    | Except.ok none =>
      { exit := 1, ops := [], sleepAttempted := false, sleepSucceeded := false }
    | Except.ok (some gs) =>
      match deviceImagesResult env gs with
      | Except.error _ =>
        { exit := 1, ops := [], sleepAttempted := false, sleepSucceeded := false }
      | Except.ok imgs => syncPhase env (deviceNamesOf imgs)

/-- Whether an operation is a delete. -/
def Op.isDelete : Op → Bool
  | Op.delete _ => true
  | Op.upload _ => false

/-- Whether an operation is an upload. -/
def Op.isUpload : Op → Bool
  | Op.delete _ => false
  | Op.upload _ => true

/-! ## Concrete environments used to instantiate the theorems -/

/-- A run in mirror mode with one local file to upload and one remote
file to remove, everything confirmed and succeeding. -/
def envMirrorSync : Env where
  sourceExists := true
  sourceIsDir := true
  sourceEntries := [{ entryName := "a.jpg", isFile := true }]
  galleriesResult := Except.ok (some [{ galleryName := "g" }])
  targetImages := Except.ok [{ nameAttr := some "b.jpg" }]
  gallery := "g"
  mirror := true
  force := true
  confirmInput := none
  deleteOk := fun _ => true
  uploadOk := fun _ => true
  sleepOk := true

/-- A run whose gallery listing yields None (main.py 180-182). -/
def envGalleryFailure : Env where
  sourceExists := true
  sourceIsDir := true
  sourceEntries := [{ entryName := "a.jpg", isFile := true }]
  galleriesResult := Except.ok none
  targetImages := Except.ok []
  gallery := "bloomin8-sync"
  mirror := false
  force := true
  confirmInput := none
  deleteOk := fun _ => true
  uploadOk := fun _ => true
  sleepOk := true

/-- A run whose device lists no galleries at all, so the target name is
absent. -/
def envTargetAbsent : Env where
  sourceExists := true
  sourceIsDir := true
  sourceEntries := [{ entryName := "a.jpg", isFile := true }]
  galleriesResult := Except.ok (some [{ galleryName := "other" }])
  targetImages := Except.ok []
  gallery := "bloomin8-sync"
  mirror := false
  force := true
  confirmInput := none
  deleteOk := fun _ => true
  uploadOk := fun _ => true
  sleepOk := true

/-- A wake environment whose scan sees no advertisements and in which
every BLE connection attempt raises. -/
def wakeEnvEmptyScan : WakeEnv where
  scanOutcome := Except.ok []
  connectOutcome := fun _ => Except.error ()
  writeWake := fun _ => Except.error ()
  writeReset := fun _ => Except.error ()

/-- A gallery holding 101 distinctly named images. -/
def galleryOf101 : List RemoteImg :=
  (List.range 101).map (fun i => { nameAttr := some (toString i) })

/-! ## Theorems -/

/-- Claim C1: for all finite sets L (local filenames) and R (remote
filenames), the computed plan satisfies to_upload = L minus R,
unchanged = L intersect R, and to_delete = R minus L when mirror mode is
requested and the empty set otherwise. -/
theorem plan_set_equations (L R : Finset String) (mirror : Bool) :
    (plan L R mirror).to_upload = L \ R ∧
    (plan L R mirror).unchanged = L ∩ R ∧
    (plan L R mirror).to_delete = (if mirror then R \ L else ∅) := by
  refine ⟨?_, ?_, ?_⟩
  · ext a; simp [plan, Finset.mem_sdiff]
  · ext a; simp [plan, Finset.mem_inter]
  · cases mirror <;> · ext a; simp [plan, Finset.mem_sdiff]

/-- Claim C2: applying the plan's own effect to the remote set makes the
next plan a no-op.  With R' = (R union to_upload) minus to_delete, the
re-computed plan has an empty to_upload, and an empty to_delete when
mirror mode is on (the second conjunct instantiates the mirror flag at
true, which is the case the claim speaks about). -/
theorem plan_idempotent (L R : Finset String) (mirror : Bool) :
    (plan L ((R ∪ (plan L R mirror).to_upload) \ (plan L R mirror).to_delete)
      mirror).to_upload = ∅ ∧
    (plan L ((R ∪ (plan L R true).to_upload) \ (plan L R true).to_delete)
      true).to_delete = ∅ := by
  constructor
  · ext a
    cases mirror <;> simp [plan] <;> tauto
  · ext a
    simp [plan]
    tauto

/-- Claim C6: the liveness probe returns true exactly when the state
endpoint answers HTTP 200 within the timeout, and returns false — as a
value, never a propagated exception — for every exception class
indicating unreachability. -/
theorem is_awake_spec :
    (∀ o : ProbeOutcome, is_awake o = true ↔ o = ProbeOutcome.response 200) ∧
    (∀ e : NetExc, is_awake (ProbeOutcome.raised e) = false) := by
  constructor
  · intro o
    cases o with
    | response s => simp [is_awake]
    | raised e => simp [is_awake]
  · intro e
    rfl

/-- Claim C7: the wake operation is a total function into a pair (it
never throws).  It returns (false, none) when no advertisement matches
the requested name, and also when the scan itself raises; it returns
(true, address) when a match is found, the connection comes up and both
characteristic writes succeed; signaling succeeds exactly when
connection and both writes succeed, so any exception during scan,
connect or write yields a negative first component, as the last conjunct
records for every starting point. -/
theorem wake_device_spec (w : WakeEnv) (deviceName : String) :
    (∀ devs, w.scanOutcome = Except.ok devs →
      (∀ d ∈ devs, matchesName deviceName d = false) →
      wake_device_bluetooth w deviceName none = (false, none)) ∧
    (∀ u : Unit, w.scanOutcome = Except.error u →
      wake_device_bluetooth w deviceName none = (false, none)) ∧
    (∀ devs addr, w.scanOutcome = Except.ok devs →
      (devs.find? (matchesName deviceName)).map BleDev.address = some addr →
      w.connectOutcome addr = Except.ok true →
      w.writeWake addr = Except.ok () →
      w.writeReset addr = Except.ok () →
      wake_device_bluetooth w deviceName none = (true, some addr)) ∧
    (∀ addr, sendWakeSignal w addr = true ↔
      (w.connectOutcome addr = Except.ok true ∧
        w.writeWake addr = Except.ok () ∧ w.writeReset addr = Except.ok ())) ∧
    (∀ addrOpt, (wake_device_bluetooth w deviceName addrOpt).1 = true →
      ∃ addr, (wake_device_bluetooth w deviceName addrOpt).2 = some addr ∧
        sendWakeSignal w addr = true) := by
  have hsig : ∀ addr, sendWakeSignal w addr = true ↔
      (w.connectOutcome addr = Except.ok true ∧
        w.writeWake addr = Except.ok () ∧ w.writeReset addr = Except.ok ()) := by
    intro addr
    unfold sendWakeSignal
    rcases hc : w.connectOutcome addr with u | b
    · simp [hc]
    · rcases b with _ | _
      · simp [hc]
      · rcases hw : w.writeWake addr with u | v
        · simp [hc, hw]
        · rcases hr : w.writeReset addr with u | v
          · simp [hc, hw, hr]
          · simp [hc, hw, hr]
  refine ⟨?_, ?_, ?_, hsig, ?_⟩
  · intro devs hscan hnone
    have hfind : devs.find? (matchesName deviceName) = none := by
      rw [List.find?_eq_none]
      intro d hd
      simp [hnone d hd]
    simp [wake_device_bluetooth, scanForDevice, hscan, hfind]
  · intro u hscan
    simp [wake_device_bluetooth, scanForDevice, hscan]
  · intro devs addr hscan hfind hc hw hr
    have hsend : sendWakeSignal w addr = true := (hsig addr).mpr ⟨hc, hw, hr⟩
    simp [wake_device_bluetooth, scanForDevice, hscan, hfind, hsend]
  · intro addrOpt hpos
    rcases addrOpt with _ | addr
    · rcases hfound : scanForDevice deviceName w.scanOutcome with _ | addr
      · rw [wake_device_bluetooth, hfound] at hpos
        simp at hpos
      · rw [wake_device_bluetooth, hfound] at hpos
        exact ⟨addr, by rw [wake_device_bluetooth, hfound], hpos⟩
    · exact ⟨addr, rfl, hpos⟩

/-- Witness for wake_device_spec: with an empty scan result, waking by
name reports (false, none). -/
theorem wake_device_spec_witness :
    wake_device_bluetooth wakeEnvEmptyScan "BLOOMIN8" none = (false, none) :=
  (wake_device_spec wakeEnvEmptyScan "BLOOMIN8").1 [] rfl (by simp)

/-- Counterexample to claim C9: a gallery of 101 images is not listed in
full — the remote filename set main.py obtains through get_images (one
page, offset 0, limit 100) misses the 101st name. -/
theorem get_images_truncates_at_100 :
    (galleryOf101.filterMap RemoteImg.nameAttr).contains "100" = true ∧
    ((get_images galleryOf101 0 100).filterMap RemoteImg.nameAttr).contains "100"
      = false ∧
    galleryOf101.length = 101 ∧ (get_images galleryOf101 0 100).length = 100 := by
  refine ⟨by decide, by decide, by decide, by decide⟩

/-- Claim C9 as amended: the remote image set used to build the plan is
the one page get_images fetches (offset 0, limit 100), which is the
complete contents of the gallery exactly for galleries of at most 100
images. -/
theorem get_images_complete_when_small (contents : List RemoteImg)
    (h : contents.length ≤ 100) : get_images contents 0 100 = contents := by
  simp [get_images, get_gallery]
  exact h

/-- Witness for get_images_complete_when_small at a one-image gallery. -/
theorem get_images_complete_when_small_witness :
    get_images [{ nameAttr := some "a.jpg" }] 0 100 =
      [{ nameAttr := some "a.jpg" }] :=
  get_images_complete_when_small [{ nameAttr := some "a.jpg" }] (by decide)

/-- The attempted operations of one execution pass: the planned deletes
(in order) followed by the planned uploads (in order). -/
theorem executeSync_ops (rf : List (Option String)) (nf : List String)
    (m : Bool) (dOk : Option String → Bool) (uOk : String → Bool) :
    (executeSync rf nf m dOk uOk).ops =
      (if m then rf else []).map Op.delete ++ nf.map Op.upload := by
  cases m <;> cases rf <;> simp [executeSync]




/-- The sync-phase trace is empty or exactly the execution pass trace. -/
theorem syncPhase_ops_cases (env : Env) (dn : List (Option String)) :
    (syncPhase env dn).ops = [] ∨
    (syncPhase env dn).ops = (executeSync (removedFilesOf (scanLocal env.sourceEntries) dn)
      (newFilesOf (scanLocal env.sourceEntries) dn) env.mirror env.deleteOk env.uploadOk).ops := by
  simp only [syncPhase]
  repeat' split
  all_goals simp

/-- The sync-phase trace is a block of deletes then a block of uploads. -/
theorem syncPhase_ops_shape (env : Env) (dn : List (Option String)) :
    ∃ (ds : List (Option String)) (us : List String),
      (syncPhase env dn).ops = ds.map Op.delete ++ us.map Op.upload := by
  rcases syncPhase_ops_cases env dn with h | h
  · exact ⟨[], [], by rw [h]; simp⟩
  · rw [h]
    exact ⟨_, _, executeSync_ops _ _ _ _ _⟩

/-- The attempt trace of any run is a block of deletes followed by a
block of uploads (main.py 291-308 then 311-334); runs that never reach
execution have an empty trace. -/
theorem mainRun_ops_shape (env : Env) :
    ∃ (ds : List (Option String)) (us : List String),
      (mainRun env).ops = ds.map Op.delete ++ us.map Op.upload := by
  simp only [mainRun]
  repeat' split
  all_goals first
    | exact syncPhase_ops_shape env _
    | exact ⟨[], [], by simp⟩

example : (mainRun envMirrorSync).ops.length = 2 := by decide
example : ((mainRun envMirrorSync).ops.get ⟨0, by decide⟩).isDelete = true := by decide

/-- Claim C3: in the attempt trace of any run, every delete is issued
strictly before every upload; deletions are never interleaved with or
preceded by uploads. -/
theorem deletes_precede_uploads (env : Env) (i j : Nat)
    (hi : i < (mainRun env).ops.length) (hj : j < (mainRun env).ops.length)
    (hd : ((mainRun env).ops.get ⟨i, hi⟩).isDelete = true)
    (hu : ((mainRun env).ops.get ⟨j, hj⟩).isUpload = true) : i < j := by
  obtain ⟨ds, us, hshape⟩ := mainRun_ops_shape env
  have hi2 : i < (mainRun env).ops.length := hi
  have hj2 : j < (mainRun env).ops.length := hj
  rw [hshape] at hi2 hj2
  simp only [List.length_append, List.length_map] at hi2 hj2
  have hi3 : i < ds.length := by
    by_contra hge
    push_neg at hge
    have hlt : i - ds.length < us.length := by omega
    have hget : (mainRun env).ops.get ⟨i, hi⟩ = Op.upload (us.get ⟨i - ds.length, hlt⟩) := by
      simp only [List.get_eq_getElem, hshape]
      rw [List.getElem_append_right (by simpa using hge)]
      simp
    rw [hget] at hd
    simp [Op.isDelete] at hd
  have hj3 : ds.length ≤ j := by
    by_contra hlt
    push_neg at hlt
    have hget : (mainRun env).ops.get ⟨j, hj⟩ = Op.delete (ds.get ⟨j, hlt⟩) := by
      simp only [List.get_eq_getElem, hshape]
      rw [List.getElem_append_left (by simpa using hlt)]
      simp
    rw [hget] at hu
    simp [Op.isUpload] at hu
  omega

/-- Witness for deletes_precede_uploads: in the mirror-mode run the
delete of b.jpg at position 0 precedes the upload of a.jpg at
position 1. -/
theorem deletes_precede_uploads_witness : 0 < 1 :=
  deletes_precede_uploads envMirrorSync 0 1 (by decide) (by decide)
    (by decide) (by decide)

/-- The delete counter counts the successful planned deletes. -/
theorem executeSync_deleted (rf : List (Option String)) (nf : List String)
    (m : Bool) (dOk : Option String → Bool) (uOk : String → Bool) :
    (executeSync rf nf m dOk uOk).deleted =
      ((if m then rf else []).filter dOk).length := by
  cases m <;> cases rf <;> simp [executeSync]

/-- The upload counter counts the successful planned uploads. -/
theorem executeSync_uploaded (rf : List (Option String)) (nf : List String)
    (m : Bool) (dOk : Option String → Bool) (uOk : String → Bool) :
    (executeSync rf nf m dOk uOk).uploaded = (nf.filter uOk).length := by
  simp [executeSync]

/-- Counting one planned delete among the mapped delete operations
counts its key. -/
theorem count_map_delete (l : List (Option String)) (f : Option String) :
    (l.map Op.delete).count (Op.delete f) = l.count f := by
  induction l with
  | nil => rfl
  | cons a t ih =>
    simp only [List.map_cons, List.count_cons, ih, beq_iff_eq, Op.delete.injEq]

/-- Claim C4: one execution pass attempts exactly the planned items — in
total the size of the planned delete list plus the planned upload list —
with every planned delete and upload attempted exactly once; the attempt
trace does not depend on the per-item outcomes (a failure aborts
nothing, and nothing is retried), and the success counters together with
the failure counts sum to the planned totals. -/
theorem execute_attempts_every_item (removedFiles : List (Option String))
    (newFiles : List String) (mirror : Bool) (delOk : Option String → Bool)
    (upOk : String → Bool) :
    (executeSync removedFiles newFiles mirror delOk upOk).ops.length =
      (if mirror then removedFiles else []).length + newFiles.length ∧
    (∀ f, (executeSync removedFiles newFiles mirror delOk upOk).ops.count
      (Op.delete f) = (if mirror then removedFiles else []).count f) ∧
    (∀ f, (executeSync removedFiles newFiles mirror delOk upOk).ops.count
      (Op.upload f) = newFiles.count f) ∧
    (executeSync removedFiles newFiles mirror delOk upOk).ops =
      (executeSync removedFiles newFiles mirror (fun _ => true)
        (fun _ => true)).ops ∧
    (executeSync removedFiles newFiles mirror delOk upOk).deleted +
      ((if mirror then removedFiles else []).filter
        (fun f => !(delOk f))).length =
      (if mirror then removedFiles else []).length ∧
    (executeSync removedFiles newFiles mirror delOk upOk).uploaded +
      (newFiles.filter (fun f => !(upOk f))).length = newFiles.length := by
  have hupinj : Function.Injective Op.upload := by
    intro a b h
    cases h
    rfl
  refine ⟨?_, ?_, ?_, ?_, ?_, ?_⟩
  · rw [executeSync_ops]
    simp
  · intro f
    rw [executeSync_ops, List.count_append]
    have h1 : ((if mirror then removedFiles else []).map Op.delete).count
        (Op.delete f) = (if mirror then removedFiles else []).count f :=
      count_map_delete _ f
    have h2 : (newFiles.map Op.upload).count (Op.delete f) = 0 := by
      rw [List.count_eq_zero]
      simp
    omega
  · intro f
    rw [executeSync_ops, List.count_append]
    have h1 : (newFiles.map Op.upload).count (Op.upload f) = newFiles.count f :=
      List.count_map_of_injective _ _ hupinj f
    have h2 : ((if mirror then removedFiles else []).map Op.delete).count
        (Op.upload f) = 0 := by
      rw [List.count_eq_zero]
      simp
    omega
  · rw [executeSync_ops, executeSync_ops]
  · rw [executeSync_deleted]
    have := List.length_eq_length_filter_add (l := if mirror then removedFiles else []) delOk
    have hnot : (List.filter (fun a => !delOk a) (if mirror then removedFiles else [])).length =
        (List.filter (fun f => !(delOk f)) (if mirror then removedFiles else [])).length := rfl
    omega
  · rw [executeSync_uploaded]
    have := List.length_eq_length_filter_add (l := newFiles) upOk
    omega

/-- The sync phase only ever exits with code 0 or 1. -/
theorem syncPhase_exit_le_one (env : Env) (dn : List (Option String)) :
    (syncPhase env dn).exit ≤ 1 := by
  simp only [syncPhase]
  repeat' split
  all_goals simp

/-- The whole run only ever exits with code 0 or 1. -/
theorem mainRun_exit_le_one (env : Env) : (mainRun env).exit ≤ 1 := by
  simp only [mainRun]
  repeat' split
  all_goals first
    | exact syncPhase_exit_le_one env _
    | simp

/-- Exit of the sync phase is 0 exactly when there was nothing to do,
or the confirmation was declined, or every planned delete and upload
succeeded. -/
theorem syncPhase_exit_zero (env : Env) (dn : List (Option String)) :
    (syncPhase env dn).exit = 0 ↔
      ((newFilesOf (scanLocal env.sourceEntries) dn = [] ∧
         (env.mirror = true → removedFilesOf (scanLocal env.sourceEntries) dn = [])) ∨
       continueSyncOf env.force env.confirmInput = false ∨
       ((∀ f ∈ (if env.mirror then removedFilesOf (scanLocal env.sourceEntries) dn
           else []), env.deleteOk f = true) ∧
        (∀ f ∈ newFilesOf (scanLocal env.sourceEntries) dn,
          env.uploadOk f = true))) := by
  simp only [syncPhase, executeSync_uploaded, executeSync_deleted]
  cases hm : env.mirror with
  | false =>
    simp only [hm, Bool.false_eq_true, if_false, List.isEmpty_nil, Bool.and_true,
      false_implies, and_true, List.not_mem_nil, false_implies, implies_true, true_and]
    split
    · rename_i hwork
      simp only [List.isEmpty_iff] at hwork
      simp [hwork]
    · rename_i hwork
      simp only [List.isEmpty_iff] at hwork
      split
      · rename_i hcont
        simp only [hm, Bool.false_and, Bool.and_false, Bool.or_false]
        constructor
        · intro h
          right; right
          have : ¬ ((List.filter env.uploadOk
              (newFilesOf (scanLocal env.sourceEntries) dn)).length <
              (newFilesOf (scanLocal env.sourceEntries) dn).length) := by
            by_contra hc
            simp [hc] at h
          have hlen : (List.filter env.uploadOk
              (newFilesOf (scanLocal env.sourceEntries) dn)).length =
              (newFilesOf (scanLocal env.sourceEntries) dn).length := by
            have := List.length_filter_le env.uploadOk
              (newFilesOf (scanLocal env.sourceEntries) dn)
            omega
          exact List.filter_length_eq_length.mp hlen
        · rintro (h1 | h2 | h3)
          · exact absurd h1 hwork
          · exact absurd hcont (by simp [h2])
          · have hlen : (List.filter env.uploadOk
                (newFilesOf (scanLocal env.sourceEntries) dn)).length =
                (newFilesOf (scanLocal env.sourceEntries) dn).length :=
              List.filter_length_eq_length.mpr h3
            simp [hlen]
      · rename_i hcont
        simp only [Bool.not_eq_true] at hcont
        simp [hcont]
  | true =>
    simp only [hm, if_true, forall_const, List.mem_filter, true_and]
    split
    · rename_i hwork
      rw [Bool.and_eq_true, List.isEmpty_iff, List.isEmpty_iff] at hwork
      simp [hwork.1, hwork.2]
    · rename_i hwork
      split
      · rename_i hcont
        simp only [Bool.true_and]
        constructor
        · intro h
          have hor : (decide ((List.filter env.uploadOk
              (newFilesOf (scanLocal env.sourceEntries) dn)).length <
                (newFilesOf (scanLocal env.sourceEntries) dn).length) ||
              (!(removedFilesOf (scanLocal env.sourceEntries) dn).isEmpty &&
                decide ((List.filter env.deleteOk
                  (removedFilesOf (scanLocal env.sourceEntries) dn)).length <
                    (removedFilesOf (scanLocal env.sourceEntries) dn).length)))
              = false := by
            by_contra hc
            rw [Bool.not_eq_false] at hc
            simp [hc] at h
          rw [Bool.or_eq_false_iff] at hor
          obtain ⟨hup, hdel⟩ := hor
          right; right
          constructor
          · rw [Bool.and_eq_false_iff] at hdel
            rcases hdel with hempty | hdlt
            · have hempty2 : removedFilesOf (scanLocal env.sourceEntries) dn = [] := by
                simpa [List.isEmpty_iff] using hempty
              simp [hempty2]
            · rw [decide_eq_false_iff_not] at hdlt
              have hle := List.length_filter_le env.deleteOk
                (removedFilesOf (scanLocal env.sourceEntries) dn)
              have hlen : (List.filter env.deleteOk
                  (removedFilesOf (scanLocal env.sourceEntries) dn)).length =
                  (removedFilesOf (scanLocal env.sourceEntries) dn).length := by
                omega
              exact List.filter_length_eq_length.mp hlen
          · rw [decide_eq_false_iff_not] at hup
            have hle := List.length_filter_le env.uploadOk
              (newFilesOf (scanLocal env.sourceEntries) dn)
            have hlen : (List.filter env.uploadOk
                (newFilesOf (scanLocal env.sourceEntries) dn)).length =
                (newFilesOf (scanLocal env.sourceEntries) dn).length := by
              omega
            exact List.filter_length_eq_length.mp hlen
        · rintro (⟨h1, h2⟩ | h2 | ⟨h3, h4⟩)
          · exact absurd (by rw [h1, h2]; rfl :
              ((newFilesOf (scanLocal env.sourceEntries) dn).isEmpty &&
                (removedFilesOf (scanLocal env.sourceEntries) dn).isEmpty) = true)
              hwork
          · exact absurd hcont (by simp [h2])
          · have hup : (List.filter env.uploadOk
                (newFilesOf (scanLocal env.sourceEntries) dn)).length =
                (newFilesOf (scanLocal env.sourceEntries) dn).length :=
              List.filter_length_eq_length.mpr h4
            have hdel : (List.filter env.deleteOk
                (removedFilesOf (scanLocal env.sourceEntries) dn)).length =
                (removedFilesOf (scanLocal env.sourceEntries) dn).length :=
              List.filter_length_eq_length.mpr h3
            simp [hup, hdel]
      · rename_i hcont
        simp only [Bool.not_eq_true] at hcont
        simp [hcont]

/-- Claim C5: the process exit code is 0 exactly when the source folder
was valid, the gallery listing and the target image listing succeeded,
and either there was nothing to do, or the user declined the
confirmation prompt, or every planned delete and upload succeeded; in
every other case — an invalid source folder, an unreachable device or
failed listing at a required step, or any failed planned item — the exit
code is 1 (the second conjunct bounds it by 1). -/
theorem exit_code_spec (env : Env) :
    ((mainRun env).exit = 0 ↔
      (env.sourceExists = true ∧ env.sourceIsDir = true ∧
        ∃ gs imgs, env.galleriesResult = Except.ok (some gs) ∧
          deviceImagesResult env gs = Except.ok imgs ∧
          ((newFilesOf (scanLocal env.sourceEntries) (deviceNamesOf imgs) = [] ∧
             (env.mirror = true →
               removedFilesOf (scanLocal env.sourceEntries)
                 (deviceNamesOf imgs) = [])) ∨
           continueSyncOf env.force env.confirmInput = false ∨
           ((∀ f ∈ (if env.mirror then
                removedFilesOf (scanLocal env.sourceEntries) (deviceNamesOf imgs)
                else []), env.deleteOk f = true) ∧
            (∀ f ∈ newFilesOf (scanLocal env.sourceEntries) (deviceNamesOf imgs),
              env.uploadOk f = true))))) ∧
    (mainRun env).exit ≤ 1 := by
  refine ⟨?_, mainRun_exit_le_one env⟩
  cases hse : env.sourceExists with
  | false => simp [mainRun, hse]
  | true =>
    cases hsd : env.sourceIsDir with
    | false => simp [mainRun, hse, hsd]
    | true =>
      rcases hg : env.galleriesResult with u | og
      · simp [mainRun, hse, hsd, hg]
      · rcases og with _ | gs
        · simp [mainRun, hse, hsd, hg]
        · rcases hi : deviceImagesResult env gs with u | imgs
          · simp [mainRun, hse, hsd, hg, hi]
          · have hmain : mainRun env = syncPhase env (deviceNamesOf imgs) := by
              simp [mainRun, hse, hsd, hg, hi]
            rw [hmain, syncPhase_exit_zero]
            constructor
            · intro h
              exact ⟨rfl, rfl, gs, imgs, rfl, hi, h⟩
            · rintro ⟨-, -, gs2, imgs2, hg2, hi2, h⟩
              injection hg2 with h1
              injection h1 with h2
              subst h2
              rw [hi] at hi2
              injection hi2 with h3
              subst h3
              exact h

/-- Whenever control reaches the sync phase, the final sleep attempt is
reached in every branch (main.py 372-378). -/
theorem syncPhase_sleepAttempted (env : Env) (dn : List (Option String)) :
    (syncPhase env dn).sleepAttempted = true := by
  simp only [syncPhase]
  repeat' split
  all_goals rfl

/-- Counterexample to claim C8: a run that passes source-folder
validation but whose gallery listing yields no list returns exit code 1
at main.py line 182 without ever attempting to put the device to sleep —
the sleep attempt is not reached on every validated run. -/
theorem sleep_skipped_on_listing_failure :
    envGalleryFailure.sourceExists = true ∧ envGalleryFailure.sourceIsDir = true ∧
    (mainRun envGalleryFailure).sleepAttempted = false ∧
    (mainRun envGalleryFailure).exit = 1 := by
  refine ⟨rfl, rfl, rfl, rfl⟩


/-- The sync-phase exit code does not depend on whether the sleep call
succeeds. -/
theorem syncPhase_exit_sleepOk (env : Env) (b : Bool) (dn : List (Option String)) :
    (syncPhase { env with sleepOk := b } dn).exit = (syncPhase env dn).exit := by
  simp only [syncPhase]
  repeat' split
  all_goals rfl

/-- The run exit code does not depend on whether the sleep call
succeeds (main.py 374-378 catches the failure). -/
theorem mainRun_exit_sleepOk (env : Env) (b : Bool) :
    (mainRun { env with sleepOk := b }).exit = (mainRun env).exit := by
  simp only [mainRun, deviceImagesResult]
  repeat' split
  all_goals first
    | rfl
    | exact syncPhase_exit_sleepOk env b _

/-- Claim C8 as amended: on every run that passes source-folder
validation and whose required listing steps succeed (a gallery list was
returned and the target gallery image listing did not fail), the sleep
attempt is always reached, whatever the sync outcome — and a failure of
the sleep call itself never changes the exit code.  (As stated the claim
fails: when a required step fails, main.py returns before the sleep
attempt, as the counterexample above records.) -/
theorem sleep_attempted_after_listing (env : Env) (gs : List Gallery)
    (imgs : List RemoteImg)
    (h1 : env.sourceExists = true) (h2 : env.sourceIsDir = true)
    (h3 : env.galleriesResult = Except.ok (some gs))
    (h4 : deviceImagesResult env gs = Except.ok imgs) :
    (mainRun env).sleepAttempted = true ∧
    (mainRun { env with sleepOk := false }).exit =
      (mainRun { env with sleepOk := true }).exit := by
  constructor
  · have hmain : mainRun env = syncPhase env (deviceNamesOf imgs) := by
      simp [mainRun, h1, h2, h3, h4]
    rw [hmain]
    exact syncPhase_sleepAttempted env (deviceNamesOf imgs)
  · rw [mainRun_exit_sleepOk env false, mainRun_exit_sleepOk env true]

/-- Witness for sleep_attempted_after_listing at a concrete run. -/
theorem sleep_attempted_after_listing_witness :
    (mainRun envTargetAbsent).sleepAttempted = true ∧
    (mainRun { envTargetAbsent with sleepOk := false }).exit =
      (mainRun { envTargetAbsent with sleepOk := true }).exit :=
  sleep_attempted_after_listing envTargetAbsent [{ galleryName := "other" }] []
    rfl rfl rfl rfl

/-- Claim C10: when no gallery on the device matches the requested
name, the run does not fail there — the remote image set is taken to be
the empty list, control reaches the sync phase (and the final sleep
attempt), and the plan upload list is the full list of local
filenames. -/
theorem target_absent_uploads_everything (env : Env) (gs : List Gallery)
    (h1 : env.sourceExists = true) (h2 : env.sourceIsDir = true)
    (h3 : env.galleriesResult = Except.ok (some gs))
    (ht : gs.any (fun g => g.galleryName == env.gallery) = false) :
    deviceImagesResult env gs = Except.ok [] ∧
    mainRun env = syncPhase env (deviceNamesOf []) ∧
    (mainRun env).sleepAttempted = true ∧
    newFilesOf (scanLocal env.sourceEntries) (deviceNamesOf []) =
      scanLocal env.sourceEntries := by
  have hdev : deviceImagesResult env gs = Except.ok [] := by
    simp [deviceImagesResult, ht]
  have hmain : mainRun env = syncPhase env (deviceNamesOf []) := by
    simp [mainRun, h1, h2, h3, hdev]
  refine ⟨hdev, hmain, ?_, ?_⟩
  · rw [hmain]
    exact syncPhase_sleepAttempted env (deviceNamesOf [])
  · simp [newFilesOf, deviceNamesOf]

/-- Witness for target_absent_uploads_everything at a concrete run. -/
theorem target_absent_uploads_everything_witness :
    deviceImagesResult envTargetAbsent [{ galleryName := "other" }] =
      Except.ok [] ∧
    mainRun envTargetAbsent = syncPhase envTargetAbsent (deviceNamesOf []) ∧
    (mainRun envTargetAbsent).sleepAttempted = true ∧
    newFilesOf (scanLocal envTargetAbsent.sourceEntries) (deviceNamesOf []) =
      scanLocal envTargetAbsent.sourceEntries :=
  target_absent_uploads_everything envTargetAbsent [{ galleryName := "other" }]
    rfl rfl rfl (by decide)
